import Mathlib

/-!
Shallow embedding of the DorsoDepth orchestration core:

* src/api/main.py — `process_video` (job orchestrator) and
  `wait_for_completion` (frame-completion watcher);
* src/api/video_processor.py — `VideoProcessor.stitch_heatmap_frames`,
  `download_heatmap_frames`, `create_video_from_frames` (frame aggregator);
* src/api/database.py — the status-mutating operations `update_job_status`,
  `update_job_completion`, `update_job_error`.

External collaborators (PostgreSQL, S3, cv2, the Go pipeline subprocess,
the filesystem of transient downloads) are modelled as explicit
environments; time is discrete, one unit per second, with the watcher
sleeping 5 units between polls exactly as the source sleeps 5 seconds.
-/

/-! ### Python string primitives used by `download_heatmap_frames` -/

/-- Python's substring test `sub in s`, on explicit character lists.
`"" in s` is `True` for every `s`, as in Python. -/
def containsSub (sub : List Char) : List Char → Bool
  | [] => sub.isEmpty
  | c :: rest => sub.isPrefixOf (c :: rest) || containsSub sub rest

/-- Python's `sub in s` at `String` level (the source tests
`"_heatmap.jpg" in key`). -/
def substrContains (s sub : String) : Bool :=
  containsSub sub.data s.data

/-- Python's `str.split(sep)` for a nonempty separator, written with fuel so
that it reduces definitionally; fuel `s.length + 1` always suffices because
every step consumes at least one character of `s`. -/
def splitFuel (sep : List Char) : Nat → List Char → List Char → List (List Char)
  | 0, s, acc => [acc.reverse ++ s]
  | fuel + 1, s, acc =>
    match s with
    | [] => [acc.reverse]
    | c :: rest =>
      if sep.isPrefixOf (c :: rest) then
        acc.reverse :: splitFuel sep fuel ((c :: rest).drop sep.length) []
      else
        splitFuel sep fuel rest (c :: acc)

/-- Python's `s.split(sep)` (nonempty `sep`). -/
def pySplit (s sep : String) : List String :=
  (splitFuel sep.data (s.data.length + 1) s.data []).map (fun l => ⟨l⟩)

/-- Tail of a Python integer literal after its first digit: digits with
single underscores allowed only between digits (PEP 515). -/
def digitsTail : List Char → Bool
  | [] => true
  | '_' :: c :: r => c.isDigit && digitsTail r
  | ['_'] => false
  | c :: r => c.isDigit && digitsTail r

/-- Digit-sequence shape accepted by Python's `int` after sign stripping. -/
def pyDigits : List Char → Bool
  | [] => false
  | c :: r => c.isDigit && digitsTail r

/-- Numeric value of a digit sequence, ignoring grouping underscores. -/
def digitsVal (cs : List Char) : Nat :=
  (cs.filter (fun c => c ≠ '_')).foldl (fun n c => 10 * n + (c.toNat - 48)) 0

/-- Python's `str.strip()` of surrounding whitespace. -/
def pyStrip (cs : List Char) : List Char :=
  ((cs.dropWhile Char.isWhitespace).reverse.dropWhile Char.isWhitespace).reverse

/-- Python's `int(s)`; `none` models the `ValueError` raised on a
non-numeric string. -/
def pyInt? (s : String) : Option Int :=
  match pyStrip s.data with
  | '-' :: rest => if pyDigits rest then some (-(digitsVal rest : Int)) else none
  | '+' :: rest => if pyDigits rest then some ((digitsVal rest : Int)) else none
  | cs => if pyDigits cs then some ((digitsVal cs : Int)) else none

/-- The ordinal-extraction expression of `download_heatmap_frames`
(src/api/video_processor.py line 51-52):
`int(key.split("frame_")[1].split("_heatmap")[0])`.
`none` models both the `IndexError` (no `"frame_"` occurrence, so index
`[1]` is out of range) and the `ValueError` from `int`. -/
def pyFrameNum? (key : String) : Option Int :=
  match (pySplit key "frame_").get? 1 with
  | none => none
  | some s1 => pyInt? ((pySplit s1 "_heatmap").headD "")

/-! ### Frame-completion watcher (`wait_for_completion`, src/api/main.py 215-237) -/

/-- One row of the external pipeline's `frames` table, as returned by
`DatabaseManager.get_frames_for_job`. The status field is a free-form
string written by the pipeline; the watcher compares it against the
literals `"pending"`, `"processing"`, `"completed"`, `"done"`, `"failed"`. -/
structure FrameRec where
  frame_number : Int
  status : String
deriving DecidableEq, Repr

/-- Python `f["status"] in ["pending", "processing"]`. -/
def isPendingRec (f : FrameRec) : Bool :=
  f.status == "pending" || f.status == "processing"

/-- Python `f["status"] == "failed"`. -/
def isFailedRec (f : FrameRec) : Bool :=
  f.status == "failed"

/-- How `wait_for_completion` ends. In the source both `satisfied` and
`frameFailed` are bare `return` statements — indistinguishable to the
caller; the constructors additionally record which branch ran and at which
poll index (elapsed time = 5 × poll index, one 5-second sleep per
iteration). `timedOut` models `raise Exception("Processing timeout
exceeded")`. -/
inductive WatchResult where
  | satisfied (pollIdx : Nat)
  | frameFailed (pollIdx : Nat)
  | timedOut
deriving DecidableEq, Repr

/-- The polling loop of `wait_for_completion`: at poll index `k` the
elapsed seconds are `5 * k` (the loop body sleeps 5 seconds), and the
`while` guard is `elapsed < timeout`. `polls k` is the frame set returned
by `get_frames_for_job` at the k-th poll. The fuel argument only forces
termination; `timeout + 1` units always suffice since the guard fails once
`5 * k ≥ timeout`. -/
def waitLoop (polls : Nat → List FrameRec) (timeout : Nat) : Nat → Nat → WatchResult
  | _, 0 => .timedOut
  | k, fuel + 1 =>
    if 5 * k < timeout then
      let frames := polls k
      if frames.isEmpty then
        waitLoop polls timeout (k + 1) fuel
      else
        let pending := frames.filter isPendingRec
        let failed := frames.filter isFailedRec
        if pending.length = 0 ∧ failed.length = 0 then .satisfied k
        else if failed.length > 0 then .frameFailed k
        else waitLoop polls timeout (k + 1) fuel
    else .timedOut

/-- The watcher `wait_for_completion(job_id, timeout=300)`. -/
def wait_for_completion (polls : Nat → List FrameRec) (timeout : Nat) : WatchResult :=
  waitLoop polls timeout 0 (timeout + 1)

/-! ### Frame aggregator (`VideoProcessor`, src/api/video_processor.py) -/

/-- A decoded image (`cv2.imread` result); only its dimensions are
observable to this core. -/
structure Image where
  height : Nat
  width : Nat
deriving DecidableEq, Repr

/-- One entry of the list built by `download_heatmap_frames`. -/
structure FrameInfo where
  frame_number : Int
  s3_key : String
  local_path : String
deriving DecidableEq, Repr

/-- External collaborators of the aggregator: the S3 listing and
downloads, the decodability of each stored artifact, and whether
`cv2.VideoWriter` opens. `contents = none` models a listing response
without a `"Contents"` key; `listingRaises` / `downloadRaises` model
exceptions from `list_objects_v2` / `download_file`. -/
structure AggEnv where
  listingRaises : Bool
  contents : Option (List String)
  downloadRaises : String → Bool
  keyImage : String → Option Image
  writerOpens : Bool

/-- Name of the n-th `tempfile.NamedTemporaryFile` created by a download
run (the real names are unique fresh paths; only identity matters). -/
def tempPath (n : Nat) : String :=
  "tmp" ++ toString n

/-- The `for obj in response["Contents"]` loop of
`download_heatmap_frames` (lines 47-67). Returns the frame list the
function returns together with the transient files created on disk.
An `IndexError`/`ValueError` while parsing a key, or an exception from
`download_file`, is caught by the surrounding `except`, which returns
`[]` — but the temp files already created stay on disk. -/
def dlLoop (env : AggEnv) :
    List String → Nat → List FrameInfo → List String → List FrameInfo × List String
  | [], _, acc, created => (acc, created)
  | key :: rest, n, acc, created =>
    if substrContains key "_heatmap.jpg" then
      match pyFrameNum? key with
      | none => ([], created)
      | some fn =>
        let path := tempPath n
        let created' := created ++ [path]
        if env.downloadRaises key then ([], created')
        else dlLoop env rest (n + 1) (acc ++ [⟨fn, key, path⟩]) created'
    else dlLoop env rest n acc created

/-- Function `VideoProcessor.download_heatmap_frames` (lines 35-73): first
component is the returned list, second the transient local files that
exist afterwards. -/
def download_heatmap_frames (env : AggEnv) : List FrameInfo × List String :=
  if env.listingRaises then ([], [])
  else
    match env.contents with
    | none => ([], [])
    | some keys => dlLoop env keys 0 [] []

/-- Observable outcome of `create_video_from_frames` /
`stitch_heatmap_frames`: the returned path or the raised message, the
frames passed to `video_writer.write` in call order, the fps and
(width, height) the writer was opened with, and the transient local files
still on disk after the call returns. -/
structure VideoOutcome where
  result : Except String String
  written : List FrameInfo
  videoFps : Option Nat
  videoDims : Option (Nat × Nat)
  remaining : List String
deriving Repr

/-- Function `VideoProcessor.create_video_from_frames` (lines 75-111).
`readImage` is `cv2.imread` on the transient filesystem; `fs` is the set
of transient files on disk at entry. The loop writes every frame whose
image decodes (`if frame is not None`), with no dimension check, and the
`os.unlink` cleanup loop runs only on the success path. -/
def create_video_from_frames (writerOpens : Bool) (readImage : String → Option Image)
    (frames : List FrameInfo) (job_id : String) (fps : Nat) (fs : List String) :
    VideoOutcome :=
  match frames with
  | [] => ⟨.error "No frames provided for video creation", [], none, none, fs⟩
  | f0 :: _ =>
    match readImage f0.local_path with
    | none => ⟨.error ("Failed to read first frame: " ++ f0.local_path), [], none, none, fs⟩
    | some first =>
      if writerOpens then
        ⟨.ok ("processed_videos/heatmap_" ++ job_id ++ ".mp4"),
         frames.filter (fun fi => (readImage fi.local_path).isSome),
         some fps, some (first.width, first.height),
         fs.filter (fun p => !((frames.map FrameInfo.local_path).contains p))⟩
      else ⟨.error "Failed to create video writer", [], none, none, fs⟩

/-- Python's stable ascending in-place sort `frames.sort(key=lambda x:
x["frame_number"])`, modelled by the stable `insertionSort` on the key
order. -/
def frameLe (a b : FrameInfo) : Prop :=
  a.frame_number ≤ b.frame_number

instance : DecidableRel frameLe := fun _ _ => Int.decLe _ _

instance : IsTotal FrameInfo frameLe := ⟨fun _ _ => Int.le_total _ _⟩

instance : IsTrans FrameInfo frameLe := ⟨fun _ _ _ => Int.le_trans⟩

/-- Function `VideoProcessor.stitch_heatmap_frames` (lines 18-33). The Python
signature is `(self, job_id, fps: int = 10)`; `process_video` calls it
without `fps`, so the default 10 is what reaches the video writer.
Reading a transient file decodes the artifact stored under the key it was
downloaded from. -/
def stitch_heatmap_frames (env : AggEnv) (job_id : String) (fps : Nat) : VideoOutcome :=
  let dl := download_heatmap_frames env
  let frames := dl.1
  let created := dl.2
  if frames.isEmpty then
    ⟨.error "No heatmap frames found in S3", [], none, none, created⟩
  else
    let sortedFrames := List.insertionSort frameLe frames
    let readImage := fun p =>
      match frames.find? (fun fi => fi.local_path == p) with
      | some fi => env.keyImage fi.s3_key
      | none => none
    create_video_from_frames env.writerOpens readImage sortedFrames job_id fps created

/-! ### Job orchestrator (`process_video`, src/api/main.py 173-213) and the
persistence operations it issues (src/api/database.py) -/

/-- One persistence-layer mutation issued by `process_video`:
`update_job_status`, `update_job_completion`, or `update_job_error`
(whose SQL also sets `status = 'failed'`, src/api/database.py 138-151). -/
inductive DbOp where
  | updateStatus (status : String)
  | updateCompletion (status : String) (path : String)
  | updateError (message : String)
deriving DecidableEq, Repr

/-- The mutable columns of one `jobs` row. -/
structure JobRecord where
  status : String
  heatmap_video_path : Option String
  error_message : Option String
deriving DecidableEq, Repr

/-- Effect of one persistence operation on a job row, following the three
UPDATE statements of src/api/database.py. -/
def applyOp (r : JobRecord) : DbOp → JobRecord
  | .updateStatus s => { r with status := s }
  | .updateCompletion s p => { r with status := s, heatmap_video_path := some p }
  | .updateError m => { r with status := "failed", error_message := some m }

/-- A job row as created by the upload handler (`status = 'uploaded'`,
no video path, no error). -/
def initialRecord : JobRecord :=
  ⟨"uploaded", none, none⟩

/-- External collaborators of one `process_video` run: the Go pipeline
subprocess exit, the `frames` table as seen at each poll, and the
aggregator's world. -/
structure Env where
  returncode : Int
  stderr : String
  polls : Nat → List FrameRec
  agg : AggEnv

/-- Everything observable about one `process_video` run: the subprocess
argument vector, the persistence mutations in order, which stages ran,
and the aggregator's outcome when it ran. -/
structure RunTrace where
  cmd : List String
  ops : List DbOp
  watcherInvoked : Bool
  aggregatorInvoked : Bool
  aggOutcome : Option VideoOutcome

/-- The orchestrator `process_video(job_id, video_path, fps)` (src/api/main.py 173-213).
The `try` body runs `update_job_status('processing')`, the subprocess,
`wait_for_completion` (default timeout 300), `stitch_heatmap_frames`
(called WITHOUT `fps`, hence its default 10), then
`update_job_completion('completed', path)`; the `except` arm runs
`update_job_status('failed')` then `update_job_error(str(e))`. A non-zero
exit raises `Exception(f"Go pipeline failed: {stderr}")` before the
watcher; a `frameFailed` watch outcome is a plain return, so the flow
falls through to aggregation exactly as a `satisfied` outcome does. -/
def process_video (env : Env) (job_id video_path : String) (fps : Nat) : RunTrace :=
  let cmd := ["go", "run", "../FlyGo/main.go", video_path, "output/" ++ job_id,
              toString fps, job_id]
  if env.returncode ≠ 0 then
    { cmd := cmd,
      ops := [.updateStatus "processing", .updateStatus "failed",
              .updateError ("Go pipeline failed: " ++ env.stderr)],
      watcherInvoked := false, aggregatorInvoked := false, aggOutcome := none }
  else
    match wait_for_completion env.polls 300 with
    | .timedOut =>
      { cmd := cmd,
        ops := [.updateStatus "processing", .updateStatus "failed",
                .updateError "Processing timeout exceeded"],
        watcherInvoked := true, aggregatorInvoked := false, aggOutcome := none }
    | _ =>
      let vo := stitch_heatmap_frames env.agg job_id 10
      match vo.result with
      | .error e =>
        { cmd := cmd,
          ops := [.updateStatus "processing", .updateStatus "failed", .updateError e],
          watcherInvoked := true, aggregatorInvoked := true, aggOutcome := some vo }
      | .ok path =>
        { cmd := cmd,
          ops := [.updateStatus "processing", .updateCompletion "completed" path],
          watcherInvoked := true, aggregatorInvoked := true, aggOutcome := some vo }

/-- The job row after a `process_video` run, starting from the freshly
created `uploaded` row. -/
def finalRecord (t : RunTrace) : JobRecord :=
  t.ops.foldl applyOp initialRecord

/-- The successive values of the `status` column over a `process_video`
run, starting at `"uploaded"`, one entry per persistence mutation. -/
def statusTrace (t : RunTrace) : List String :=
  (t.ops.scanl applyOp initialRecord).map JobRecord.status

/-! ### Concrete environments for counterexamples and witnesses -/

/-- A healthy aggregator world for job `J`: artifacts 1 and 2, both
decodable at 4×4, no storage faults, the writer opens. -/
def aggOK : AggEnv :=
  { listingRaises := false,
    contents := some ["heatmaps/J/frame_1_heatmap.jpg", "heatmaps/J/frame_2_heatmap.jpg"],
    downloadRaises := fun _ => false,
    keyImage := fun _ => some ⟨4, 4⟩,
    writerOpens := true }

/-- Healthy aggregator world for job `J1` (the end-to-end scenario). -/
def aggJ1 : AggEnv :=
  { listingRaises := false,
    contents := some ["heatmaps/J1/frame_1_heatmap.jpg", "heatmaps/J1/frame_2_heatmap.jpg"],
    downloadRaises := fun _ => false,
    keyImage := fun _ => some ⟨4, 4⟩,
    writerOpens := true }

/-- Aggregator world whose single artifact exists but fails to decode. -/
def aggBadFirst : AggEnv :=
  { listingRaises := false,
    contents := some ["heatmaps/J/frame_1_heatmap.jpg"],
    downloadRaises := fun _ => false,
    keyImage := fun _ => none,
    writerOpens := true }

/-- Aggregator world with one conforming key followed by a key that
contains `"_heatmap.jpg"` but no `"frame_"`, so its parse raises. -/
def aggBadKey : AggEnv :=
  { listingRaises := false,
    contents := some ["heatmaps/J/frame_1_heatmap.jpg", "heatmaps/J/bad_heatmap.jpg"],
    downloadRaises := fun _ => false,
    keyImage := fun _ => some ⟨4, 4⟩,
    writerOpens := true }

/-- Aggregator world listing ordinals [3, 1, 2] in that order. -/
def aggShuffled : AggEnv :=
  { listingRaises := false,
    contents := some ["heatmaps/J/frame_3_heatmap.jpg", "heatmaps/J/frame_1_heatmap.jpg",
                      "heatmaps/J/frame_2_heatmap.jpg"],
    downloadRaises := fun _ => false,
    keyImage := fun _ => some ⟨4, 4⟩,
    writerOpens := true }

/-- Aggregator world where artifact 1 decodes but artifact 2 does not. -/
def aggSecondUnreadable : AggEnv :=
  { listingRaises := false,
    contents := some ["heatmaps/J/frame_1_heatmap.jpg", "heatmaps/J/frame_2_heatmap.jpg"],
    downloadRaises := fun _ => false,
    keyImage := fun k => if k == "heatmaps/J/frame_1_heatmap.jpg" then some ⟨4, 4⟩ else none,
    writerOpens := true }

/-- Pipeline succeeds; the first poll already shows frame 1 `failed`
while frame 2 is still `pending`; artifacts and writer are healthy. -/
def envFrameFailed : Env :=
  { returncode := 0, stderr := "",
    polls := fun _ => [⟨1, "failed"⟩, ⟨2, "pending"⟩],
    agg := aggOK }

/-- The healthy end-to-end scenario for job `J1`: pipeline exits 0, both
frames complete, both artifacts present and decodable. -/
def envHappyJ1 : Env :=
  { returncode := 0, stderr := "",
    polls := fun _ => [⟨1, "completed"⟩, ⟨2, "completed"⟩],
    agg := aggJ1 }

/-- The pipeline exits 1 with stderr `"decode error"`. -/
def envPipelineFail : Env :=
  { returncode := 1, stderr := "decode error",
    polls := fun _ => [], agg := aggOK }

/-- The frame table stays empty on every poll. -/
def envNoFrames : Env :=
  { returncode := 0, stderr := "",
    polls := fun _ => [], agg := aggOK }

/-! ### Watcher lemmas -/

/-- If every poll returns the empty frame set, the watch loop never leaves
`waiting` and ends in `timedOut`, for any fuel and start index. -/
theorem waitLoop_empty (polls : Nat → List FrameRec) (timeout : Nat)
    (hp : ∀ i, polls i = []) :
    ∀ (fuel k : Nat), waitLoop polls timeout k fuel = .timedOut := by
  intro fuel
  induction fuel with
  | zero => intro k; rfl
  | succ fuel ih =>
    intro k
    by_cases hk : 5 * k < timeout
    · simp only [waitLoop, if_pos hk, hp k, List.isEmpty_nil, if_true]
      exact ih (k + 1)
    · simp only [waitLoop, if_neg hk]

/-- If the poll at index `k` contains a failed frame, the loop body at `k`
returns at once through the failed-frames branch. -/
theorem waitLoop_failed_step (polls : Nat → List FrameRec) (timeout k fuel : Nat)
    (hk : 5 * k < timeout) (h : ∃ f ∈ polls k, isFailedRec f = true) :
    waitLoop polls timeout k (fuel + 1) = .frameFailed k := by
  obtain ⟨f, hf, hfail⟩ := h
  have hmem : f ∈ (polls k).filter isFailedRec := List.mem_filter.mpr ⟨hf, hfail⟩
  have hfl : 0 < ((polls k).filter isFailedRec).length :=
    List.length_pos.mpr (List.ne_nil_of_mem hmem)
  have hne : (polls k).isEmpty = false :=
    List.isEmpty_eq_false.mpr (List.ne_nil_of_mem hf)
  have hcond : ¬(((polls k).filter isPendingRec).length = 0 ∧
      ((polls k).filter isFailedRec).length = 0) := by
    rintro ⟨-, h0⟩
    omega
  simp only [waitLoop, if_pos hk, hne, Bool.false_eq_true, if_false, if_neg hcond,
    if_pos hfl]

/-! ### Shape lemmas for `process_video` runs -/

/-- The subprocess argument vector built by `process_video`. -/
def goCmd (job_id video_path : String) (fps : Nat) : List String :=
  ["go", "run", "../FlyGo/main.go", video_path, "output/" ++ job_id, toString fps, job_id]

/-- Run shape when the pipeline exits non-zero. -/
theorem process_video_nonzero (env : Env) (job_id video_path : String) (fps : Nat)
    (h : env.returncode ≠ 0) :
    process_video env job_id video_path fps =
      { cmd := goCmd job_id video_path fps,
        ops := [.updateStatus "processing", .updateStatus "failed",
                .updateError ("Go pipeline failed: " ++ env.stderr)],
        watcherInvoked := false, aggregatorInvoked := false, aggOutcome := none } := by
  simp only [process_video, if_pos h, goCmd]

/-- Run shape when the pipeline succeeds but the watcher times out. -/
theorem process_video_timeout (env : Env) (job_id video_path : String) (fps : Nat)
    (h0 : env.returncode = 0)
    (hw : wait_for_completion env.polls 300 = .timedOut) :
    process_video env job_id video_path fps =
      { cmd := goCmd job_id video_path fps,
        ops := [.updateStatus "processing", .updateStatus "failed",
                .updateError "Processing timeout exceeded"],
        watcherInvoked := true, aggregatorInvoked := false, aggOutcome := none } := by
  have hif : ¬(env.returncode ≠ 0) := by simp [h0]
  simp only [process_video, if_neg hif, hw, goCmd]

/-- Run shape when the watcher returns (either branch) and aggregation
raises with message `e`. -/
theorem process_video_agg_error (env : Env) (job_id video_path : String) (fps k : Nat)
    (h0 : env.returncode = 0)
    (hw : wait_for_completion env.polls 300 = .frameFailed k ∨
          wait_for_completion env.polls 300 = .satisfied k)
    (e : String)
    (he : (stitch_heatmap_frames env.agg job_id 10).result = .error e) :
    process_video env job_id video_path fps =
      { cmd := goCmd job_id video_path fps,
        ops := [.updateStatus "processing", .updateStatus "failed", .updateError e],
        watcherInvoked := true, aggregatorInvoked := true,
        aggOutcome := some (stitch_heatmap_frames env.agg job_id 10) } := by
  have hif : ¬(env.returncode ≠ 0) := by simp [h0]
  rcases hw with hw | hw <;> simp only [process_video, if_neg hif, hw, he, goCmd]

/-- Run shape when the watcher returns (either branch) and aggregation
returns a video path. -/
theorem process_video_agg_ok (env : Env) (job_id video_path : String) (fps k : Nat)
    (h0 : env.returncode = 0)
    (hw : wait_for_completion env.polls 300 = .frameFailed k ∨
          wait_for_completion env.polls 300 = .satisfied k)
    (path : String)
    (hp : (stitch_heatmap_frames env.agg job_id 10).result = .ok path) :
    process_video env job_id video_path fps =
      { cmd := goCmd job_id video_path fps,
        ops := [.updateStatus "processing", .updateCompletion "completed" path],
        watcherInvoked := true, aggregatorInvoked := true,
        aggOutcome := some (stitch_heatmap_frames env.agg job_id 10) } := by
  have hif : ¬(env.returncode ≠ 0) := by simp [h0]
  rcases hw with hw | hw <;> simp only [process_video, if_neg hif, hw, hp, goCmd]

/-! ### Claim C5 -/

/-- C5: whenever the Go pipeline exits non-zero, `process_video` marks the
job `failed`, the stored `error_message` contains the captured stderr
(it is `"Go pipeline failed: " ++ stderr`), and neither
`wait_for_completion` nor `stitch_heatmap_frames` is invoked. -/
theorem pipeline_failure_fails_job_and_skips_stages
    (env : Env) (job_id video_path : String) (fps : Nat)
    (h : env.returncode ≠ 0) :
    (finalRecord (process_video env job_id video_path fps)).status = "failed" ∧
    (∃ p, (finalRecord (process_video env job_id video_path fps)).error_message =
      some (p ++ env.stderr)) ∧
    (process_video env job_id video_path fps).watcherInvoked = false ∧
    (process_video env job_id video_path fps).aggregatorInvoked = false := by
  rw [process_video_nonzero env job_id video_path fps h]
  exact ⟨rfl, ⟨"Go pipeline failed: ", rfl⟩, rfl, rfl⟩

/-- Witness for C5 at the concrete scenario `J2`: exit code 1 with stderr
`"decode error"`. -/
theorem pipeline_failure_fails_job_and_skips_stages_witness :
    envPipelineFail.returncode ≠ 0 ∧
    ((finalRecord (process_video envPipelineFail "J2" "v.mp4" 1)).status = "failed" ∧
     (∃ p, (finalRecord (process_video envPipelineFail "J2" "v.mp4" 1)).error_message =
       some (p ++ envPipelineFail.stderr)) ∧
     (process_video envPipelineFail "J2" "v.mp4" 1).watcherInvoked = false ∧
     (process_video envPipelineFail "J2" "v.mp4" 1).aggregatorInvoked = false) :=
  ⟨by decide, pipeline_failure_fails_job_and_skips_stages envPipelineFail "J2" "v.mp4" 1
    (by decide)⟩

/-! ### Claim C6 -/

/-- C6: if the frame query returns the empty set on every poll, the
watcher never reports success, times out once the 300-second ceiling is
reached, and the job ends `failed` with the timeout diagnostic — never
`completed`. -/
theorem empty_frames_time_out (env : Env) (job_id video_path : String) (fps : Nat)
    (hret : env.returncode = 0) (hempty : ∀ k, env.polls k = []) :
    wait_for_completion env.polls 300 = .timedOut ∧
    (∀ k, wait_for_completion env.polls 300 ≠ .satisfied k) ∧
    (finalRecord (process_video env job_id video_path fps)).status = "failed" ∧
    (finalRecord (process_video env job_id video_path fps)).error_message =
      some "Processing timeout exceeded" ∧
    (finalRecord (process_video env job_id video_path fps)).status ≠ "completed" := by
  have hw : wait_for_completion env.polls 300 = .timedOut :=
    waitLoop_empty env.polls 300 hempty 301 0
  have hne : ("failed" : String) ≠ "completed" := by decide
  rw [process_video_timeout env job_id video_path fps hret hw]
  refine ⟨hw, ?_, rfl, rfl, fun hc => hne hc⟩
  intro k hk
  rw [hw] at hk
  cases hk

/-- Witness for C6: the concrete environment whose frame table stays
empty forever. -/
theorem empty_frames_time_out_witness :
    envNoFrames.returncode = 0 ∧
    (wait_for_completion envNoFrames.polls 300 = .timedOut ∧
     (∀ k, wait_for_completion envNoFrames.polls 300 ≠ .satisfied k) ∧
     (finalRecord (process_video envNoFrames "J" "v.mp4" 1)).status = "failed" ∧
     (finalRecord (process_video envNoFrames "J" "v.mp4" 1)).error_message =
       some "Processing timeout exceeded" ∧
     (finalRecord (process_video envNoFrames "J" "v.mp4" 1)).status ≠ "completed") :=
  ⟨rfl, empty_frames_time_out envNoFrames "J" "v.mp4" 1 rfl (fun _ => rfl)⟩

/-! ### Claim C1 -/

/-- C1 counterexample: with frame 1 `failed` and frame 2 still `pending`
on the first poll, the watch loop does return at once through the
failed-frames branch — but that return is a plain fall-through: the
orchestrator proceeds to aggregation, which here succeeds, so the job is
recorded `completed` with no error message, contradicting the claimed
`failed` outcome without aggregation. -/
theorem frame_failure_not_failfast_counterexample :
    wait_for_completion envFrameFailed.polls 300 = .frameFailed 0 ∧
    (process_video envFrameFailed "J" "v.mp4" 1).aggregatorInvoked = true ∧
    (finalRecord (process_video envFrameFailed "J" "v.mp4" 1)).status = "completed" ∧
    (finalRecord (process_video envFrameFailed "J" "v.mp4" 1)).error_message = none :=
  ⟨rfl, rfl, rfl, rfl⟩

/-- C1 amended: when some frame is `failed` at the first poll, the watch
step does terminate immediately (at poll index 0, through the
failed-frames branch, without waiting for pending frames) — but it
returns normally, so `process_video` always proceeds to aggregation, and
the job ends `completed` exactly when aggregation returns a path. -/
theorem frame_failure_returns_immediately_but_aggregates
    (env : Env) (job_id video_path : String) (fps : Nat)
    (hret : env.returncode = 0)
    (h : ∃ f ∈ env.polls 0, isFailedRec f = true) :
    wait_for_completion env.polls 300 = .frameFailed 0 ∧
    (process_video env job_id video_path fps).watcherInvoked = true ∧
    (process_video env job_id video_path fps).aggregatorInvoked = true ∧
    ((finalRecord (process_video env job_id video_path fps)).status = "completed" ↔
      ∃ path, (stitch_heatmap_frames env.agg job_id 10).result = .ok path) := by
  have hw : wait_for_completion env.polls 300 = .frameFailed 0 :=
    waitLoop_failed_step env.polls 300 0 300 (by norm_num) h
  have hne : ("failed" : String) ≠ "completed" := by decide
  rcases hs : (stitch_heatmap_frames env.agg job_id 10).result with e | p
  · rw [process_video_agg_error env job_id video_path fps 0 hret (Or.inl hw) e hs]
    refine ⟨hw, rfl, rfl, ?_⟩
    constructor
    · intro hc; exact absurd hc hne
    · rintro ⟨path, hpath⟩
      cases hpath
  · rw [process_video_agg_ok env job_id video_path fps 0 hret (Or.inl hw) p hs]
    exact ⟨hw, rfl, rfl, fun _ => ⟨p, rfl⟩, fun _ => rfl⟩

/-- Witness for C1's amended theorem at the concrete failed-plus-pending
poll. -/
theorem frame_failure_returns_immediately_but_aggregates_witness :
    envFrameFailed.returncode = 0 ∧
    (∃ f ∈ envFrameFailed.polls 0, isFailedRec f = true) ∧
    (wait_for_completion envFrameFailed.polls 300 = .frameFailed 0 ∧
     (process_video envFrameFailed "J" "in.mp4" 2).watcherInvoked = true ∧
     (process_video envFrameFailed "J" "in.mp4" 2).aggregatorInvoked = true ∧
     ((finalRecord (process_video envFrameFailed "J" "in.mp4" 2)).status = "completed" ↔
       ∃ path, (stitch_heatmap_frames envFrameFailed.agg "J" 10).result = .ok path)) :=
  ⟨rfl, by decide,
   frame_failure_returns_immediately_but_aggregates envFrameFailed "J" "in.mp4" 2 rfl
     (by decide)⟩

/-! ### Claim C9 -/

/-- One legal step of the job status column: the forward moves
`uploaded → processing → {completed | failed}` plus the value-preserving
re-write of `failed` (issued because `update_job_error` follows
`update_job_status('failed')` and writes `status = 'failed'` again). -/
def stepOK (a b : String) : Prop :=
  (a = "uploaded" ∧ b = "processing") ∨
  (a = "processing" ∧ (b = "completed" ∨ b = "failed")) ∨
  (a = "failed" ∧ b = "failed")

instance : DecidableRel stepOK := fun a b =>
  decidable_of_iff
    ((a = "uploaded" ∧ b = "processing") ∨
     (a = "processing" ∧ (b = "completed" ∨ b = "failed")) ∨
     (a = "failed" ∧ b = "failed")) Iff.rfl

/-- The monotone-status property claimed of every run: the trace starts at
`uploaded`, every consecutive move is a legal forward step, any entry at a
terminal status fixes every later entry to the same value (`List.Pairwise`
relates each entry to every strictly later one), and `uploaded` never
recurs after the initial entry. -/
def traceOK (l : List String) : Prop :=
  l.head? = some "uploaded" ∧
  List.Chain' stepOK l ∧
  List.Pairwise (fun a b => (a = "completed" ∨ a = "failed") → b = a) l ∧
  List.Pairwise (fun _ b => b ≠ "uploaded") l

/-- Property `traceOK` holds of the failure-shaped status trace. -/
theorem traceOK_failed : traceOK ["uploaded", "processing", "failed", "failed"] := by
  refine ⟨rfl, ?_, by decide, by decide⟩
  exact List.chain'_cons.mpr ⟨by decide, List.chain'_cons.mpr ⟨by decide,
    List.chain'_cons.mpr ⟨by decide, List.chain'_singleton _⟩⟩⟩

/-- Property `traceOK` holds of the success-shaped status trace. -/
theorem traceOK_completed : traceOK ["uploaded", "processing", "completed"] := by
  refine ⟨rfl, ?_, by decide, by decide⟩
  exact List.chain'_cons.mpr ⟨by decide, List.chain'_cons.mpr ⟨by decide,
    List.chain'_singleton _⟩⟩

/-- Every `process_video` run issues one of two persistence sequences:
processing-failed-error, or processing-completion. -/
theorem process_video_ops_shape (env : Env) (job_id video_path : String) (fps : Nat) :
    (∃ m, (process_video env job_id video_path fps).ops =
        [.updateStatus "processing", .updateStatus "failed", .updateError m]) ∨
    (∃ p, (process_video env job_id video_path fps).ops =
        [.updateStatus "processing", .updateCompletion "completed" p]) := by
  by_cases h : env.returncode ≠ 0
  · rw [process_video_nonzero env job_id video_path fps h]
    exact .inl ⟨_, rfl⟩
  · have h0 : env.returncode = 0 := by omega
    rcases hw : wait_for_completion env.polls 300 with k | k | _
    · rcases hs : (stitch_heatmap_frames env.agg job_id 10).result with e | p
      · rw [process_video_agg_error env job_id video_path fps k h0 (Or.inr hw) e hs]
        exact .inl ⟨_, rfl⟩
      · rw [process_video_agg_ok env job_id video_path fps k h0 (Or.inr hw) p hs]
        exact .inr ⟨_, rfl⟩
    · rcases hs : (stitch_heatmap_frames env.agg job_id 10).result with e | p
      · rw [process_video_agg_error env job_id video_path fps k h0 (Or.inl hw) e hs]
        exact .inl ⟨_, rfl⟩
      · rw [process_video_agg_ok env job_id video_path fps k h0 (Or.inl hw) p hs]
        exact .inr ⟨_, rfl⟩
    · rw [process_video_timeout env job_id video_path fps h0 hw]
      exact .inl ⟨_, rfl⟩

/-- C9: over any run of the orchestrator and persistence layer, the job
status only moves forward along `uploaded → processing → {completed |
failed}`, never returns to `uploaded`, and once terminal never changes
again. -/
theorem job_status_monotone (env : Env) (job_id video_path : String) (fps : Nat) :
    traceOK (statusTrace (process_video env job_id video_path fps)) := by
  rcases process_video_ops_shape env job_id video_path fps with ⟨m, hm⟩ | ⟨p, hp⟩
  · have ht : statusTrace (process_video env job_id video_path fps) =
        ["uploaded", "processing", "failed", "failed"] := by
      simp [statusTrace, hm, applyOp, initialRecord]
    rw [ht]
    exact traceOK_failed
  · have ht : statusTrace (process_video env job_id video_path fps) =
        ["uploaded", "processing", "completed"] := by
      simp [statusTrace, hp, applyOp, initialRecord]
    rw [ht]
    exact traceOK_completed

/-! ### Claim C2 -/

/-- C2 counterexample: the end-to-end scenario `J1` submitted with fps=2
(pipeline exits 0, frames 1 and 2 completed, both artifacts present) does
end `completed` with a 2-frame video — but the video writer was opened at
10 fps (the stitcher's default), not at the job's 2 fps, because
`process_video` calls `stitch_heatmap_frames(job_id)` without forwarding
`fps`. -/
theorem job_fps_not_used_for_video_counterexample :
    (finalRecord (process_video envHappyJ1 "J1" "in.mp4" 2)).status = "completed" ∧
    ((process_video envHappyJ1 "J1" "in.mp4" 2).aggOutcome.map VideoOutcome.videoFps) =
      some (some 10) ∧
    ((process_video envHappyJ1 "J1" "in.mp4" 2).aggOutcome.map VideoOutcome.videoFps) ≠
      some (some 2) ∧
    ((process_video envHappyJ1 "J1" "in.mp4" 2).aggOutcome.map
      (fun vo => vo.written.length)) = some 2 := by
  refine ⟨rfl, rfl, ?_, rfl⟩
  intro h
  rw [show ((process_video envHappyJ1 "J1" "in.mp4" 2).aggOutcome.map
    VideoOutcome.videoFps) = some (some 10) from rfl] at h
  simp at h

/-- C2 amended: for the healthy `J1` scenario and ANY submitted fps, the
job ends `completed` with a 2-frame video, the job's fps reaches only the
pipeline argument vector, and the output video is encoded at the
stitcher's default 10 fps, independent of the job's fps. -/
theorem video_encoded_at_default_ten_fps (fps : Nat) (video_path : String) :
    (finalRecord (process_video envHappyJ1 "J1" video_path fps)).status = "completed" ∧
    ((process_video envHappyJ1 "J1" video_path fps).aggOutcome.map VideoOutcome.videoFps) =
      some (some 10) ∧
    ((process_video envHappyJ1 "J1" video_path fps).aggOutcome.map
      (fun vo => vo.written.length)) = some 2 ∧
    (process_video envHappyJ1 "J1" video_path fps).cmd =
      ["go", "run", "../FlyGo/main.go", video_path, "output/J1", toString fps, "J1"] :=
  ⟨rfl, rfl, rfl, rfl⟩

/-! ### Claim C3 -/

/-- Every transient file recorded as created by a download run that
returns a non-empty frame list is the local path of one of the returned
frames (an aborted run returns `[]` instead). -/
theorem dlLoop_created_sub (env : AggEnv) :
    ∀ (keys : List String) (n : Nat) (acc : List FrameInfo) (created : List String),
      (∀ p ∈ created, p ∈ acc.map FrameInfo.local_path) →
      (dlLoop env keys n acc created).1 ≠ [] →
      ∀ p ∈ (dlLoop env keys n acc created).2,
        p ∈ (dlLoop env keys n acc created).1.map FrameInfo.local_path := by
  intro keys
  induction keys with
  | nil =>
    intro n acc created hinv _ p hp
    simp only [dlLoop] at hp ⊢
    exact hinv p hp
  | cons key rest ih =>
    intro n acc created hinv hne p hp
    cases hsub : substrContains key "_heatmap.jpg" with
    | false =>
      have hstep : dlLoop env (key :: rest) n acc created = dlLoop env rest n acc created := by
        simp [dlLoop, hsub]
      rw [hstep] at hne hp ⊢
      exact ih n acc created hinv hne p hp
    | true =>
      rcases hfn : pyFrameNum? key with _ | fn
      · simp [dlLoop, hsub, hfn] at hne
      · cases hdl : env.downloadRaises key with
        | true => simp [dlLoop, hsub, hfn, hdl] at hne
        | false =>
          have hstep : dlLoop env (key :: rest) n acc created =
              dlLoop env rest (n + 1) (acc ++ [⟨fn, key, tempPath n⟩])
                (created ++ [tempPath n]) := by
            simp [dlLoop, hsub, hfn, hdl]
          rw [hstep] at hne hp ⊢
          refine ih (n + 1) _ _ ?_ hne p hp
          intro q hq
          rw [List.map_append]
          rcases List.mem_append.mp hq with hq | hq
          · exact List.mem_append.mpr (Or.inl (hinv q hq))
          · refine List.mem_append.mpr (Or.inr ?_)
            simpa using hq

/-- When `create_video_from_frames` succeeds, the files remaining on disk
are exactly the entry files minus the frames' local paths (the `os.unlink`
loop runs after `video_writer.release()`). -/
theorem create_video_ok_remaining (w : Bool) (readImage : String → Option Image)
    (frames : List FrameInfo) (job_id : String) (fps : Nat) (fs : List String)
    (h : ∃ path, (create_video_from_frames w readImage frames job_id fps fs).result =
      .ok path) :
    (create_video_from_frames w readImage frames job_id fps fs).remaining =
      fs.filter (fun p => !((frames.map FrameInfo.local_path).contains p)) := by
  obtain ⟨path, hp⟩ := h
  rcases frames with _ | ⟨f0, rest⟩
  · simp [create_video_from_frames] at hp
  · rcases hr : readImage f0.local_path with _ | img
    · simp [create_video_from_frames, hr] at hp
    · cases w
      · simp [create_video_from_frames, hr] at hp
      · simp [create_video_from_frames, hr]

/-- C3 amended: transient copies are deleted exactly on the success path.
Whenever `stitch_heatmap_frames` returns a video path, no transient file
of the run remains on disk. (The counterexample shows the claimed
failure-side cleanup does not hold.) -/
theorem stitch_success_cleans_up (env : AggEnv) (job_id : String) (fps : Nat)
    (h : ∃ path, (stitch_heatmap_frames env job_id fps).result = .ok path) :
    (stitch_heatmap_frames env job_id fps).remaining = [] := by
  cases hE : (download_heatmap_frames env).1.isEmpty with
  | true =>
    obtain ⟨path, hp⟩ := h
    simp [stitch_heatmap_frames, hE] at hp
  | false =>
    have h' : ∃ path,
        (create_video_from_frames env.writerOpens
          (fun p => match (download_heatmap_frames env).1.find?
              (fun fi => fi.local_path == p) with
            | some fi => env.keyImage fi.s3_key
            | none => none)
          (List.insertionSort frameLe (download_heatmap_frames env).1) job_id fps
          (download_heatmap_frames env).2).result = .ok path := by
      obtain ⟨path, hp⟩ := h
      refine ⟨path, ?_⟩
      simpa [stitch_heatmap_frames, hE] using hp
    have hrem := create_video_ok_remaining env.writerOpens _ _ job_id fps _ h'
    have hgoal : (download_heatmap_frames env).2.filter
        (fun p => !(((List.insertionSort frameLe
          (download_heatmap_frames env).1).map FrameInfo.local_path).contains p)) = [] := by
      refine List.filter_eq_nil_iff.mpr ?_
      intro p hp
      have hne1 : (download_heatmap_frames env).1 ≠ [] := by
        intro h0
        rw [h0] at hE
        simp at hE
      have hmem : p ∈ (download_heatmap_frames env).1.map FrameInfo.local_path := by
        cases hLR : env.listingRaises with
        | true =>
          rw [download_heatmap_frames, if_pos hLR] at hne1
          exact absurd rfl hne1
        | false =>
          rcases hC : env.contents with _ | keys
          · rw [download_heatmap_frames, if_neg (by simp [hLR]), hC] at hne1
            exact absurd rfl hne1
          · rw [download_heatmap_frames, if_neg (by simp [hLR]), hC] at hne1 hp ⊢
            exact dlLoop_created_sub env keys 0 [] [] (by simp) hne1 p hp
      have hmem2 : p ∈ (List.insertionSort frameLe
          (download_heatmap_frames env).1).map FrameInfo.local_path :=
        (((List.perm_insertionSort frameLe
          (download_heatmap_frames env).1).map FrameInfo.local_path).mem_iff).mpr hmem
      have hc : ((List.insertionSort frameLe
          (download_heatmap_frames env).1).map FrameInfo.local_path).contains p = true :=
        List.elem_iff.mpr hmem2
      simp [hc]
      obtain ⟨x, hx, hxp⟩ := List.mem_map.mp hmem
      exact ⟨x, hx, hxp⟩
    rw [show (stitch_heatmap_frames env job_id fps).remaining =
      (create_video_from_frames env.writerOpens
        (fun p => match (download_heatmap_frames env).1.find?
            (fun fi => fi.local_path == p) with
          | some fi => env.keyImage fi.s3_key
          | none => none)
        (List.insertionSort frameLe (download_heatmap_frames env).1) job_id fps
        (download_heatmap_frames env).2).remaining from by
      simp [stitch_heatmap_frames, hE]]
    rw [hrem]
    exact hgoal

/-- C3 counterexample: one artifact exists, is downloaded to `tmp0`, but
fails to decode; `create_video_from_frames` raises before its cleanup
loop, so `stitch_heatmap_frames` returns with the transient copy still on
disk — cleanup is NOT unconditional on failure. -/
theorem cleanup_not_unconditional_counterexample :
    (stitch_heatmap_frames aggBadFirst "J" 10).result =
      .error "Failed to read first frame: tmp0" ∧
    (stitch_heatmap_frames aggBadFirst "J" 10).remaining = ["tmp0"] :=
  ⟨rfl, rfl⟩

/-- Witness for C3's amended theorem at the healthy two-artifact world. -/
theorem stitch_success_cleans_up_witness :
    (∃ path, (stitch_heatmap_frames aggOK "J" 10).result = .ok path) ∧
    (stitch_heatmap_frames aggOK "J" 10).remaining = [] :=
  ⟨⟨"processed_videos/heatmap_J.mp4", rfl⟩,
   stitch_success_cleans_up aggOK "J" 10 ⟨"processed_videos/heatmap_J.mp4", rfl⟩⟩

/-! ### Claim C4 -/

/-- C4 counterexample: the listing holds a fully conforming key (ordinal
1, substring test passes, parse succeeds) together with a key containing
`"_heatmap.jpg"` but no `"frame_"`. The parse failure on the second key
raises inside the loop, the surrounding `except` returns `[]`, and the
conforming key's already-downloaded artifact is discarded with it — one
bad key does affect the handling of the others, and aggregation then
fails as if no artifacts existed. -/
theorem bad_key_discards_all_counterexample :
    substrContains "heatmaps/J/frame_1_heatmap.jpg" "_heatmap.jpg" = true ∧
    pyFrameNum? "heatmaps/J/frame_1_heatmap.jpg" = some 1 ∧
    (download_heatmap_frames aggBadKey).1 = [] ∧
    (download_heatmap_frames aggBadKey).2 = ["tmp0"] ∧
    (stitch_heatmap_frames aggBadKey "J" 10).result =
      .error "No heatmap frames found in S3" :=
  ⟨rfl, rfl, rfl, rfl, rfl⟩

/-- C4 amended: a key lacking the `"_heatmap.jpg"` substring is skipped
individually, leaving the loop state untouched; but a key that contains
the substring while its embedded ordinal fails to parse aborts the whole
listing — the loop returns `[]`, discarding every other key. -/
theorem key_skipping_vs_parse_abort
    (env : AggEnv) (k1 k2 : String) (rest : List String) (n : Nat)
    (acc : List FrameInfo) (created : List String)
    (h1 : substrContains k1 "_heatmap.jpg" = false)
    (h2 : substrContains k2 "_heatmap.jpg" = true)
    (h3 : pyFrameNum? k2 = none) :
    dlLoop env (k1 :: rest) n acc created = dlLoop env rest n acc created ∧
    dlLoop env (k2 :: rest) n acc created = ([], created) := by
  constructor
  · simp [dlLoop, h1]
  · simp [dlLoop, h2, h3]

/-- Witness for C4's amended theorem on concrete keys. -/
theorem key_skipping_vs_parse_abort_witness :
    substrContains "heatmaps/J/readme.txt" "_heatmap.jpg" = false ∧
    substrContains "heatmaps/J/bad_heatmap.jpg" "_heatmap.jpg" = true ∧
    pyFrameNum? "heatmaps/J/bad_heatmap.jpg" = none ∧
    (dlLoop aggBadKey ["heatmaps/J/readme.txt"] 0 [] [] = dlLoop aggBadKey [] 0 [] [] ∧
     dlLoop aggBadKey ["heatmaps/J/bad_heatmap.jpg"] 0 [] [] = ([], [])) :=
  ⟨rfl, rfl, rfl,
   key_skipping_vs_parse_abort aggBadKey "heatmaps/J/readme.txt"
     "heatmaps/J/bad_heatmap.jpg" [] 0 [] [] rfl rfl rfl⟩

/-! ### Claim C7 -/

/-- Whatever branch `create_video_from_frames` takes, the frames it writes
form a sublist of its input sequence (the success branch filters out the
undecodable ones; every error branch writes nothing). -/
theorem create_video_written_sublist (w : Bool) (readImage : String → Option Image)
    (frames : List FrameInfo) (job_id : String) (fps : Nat) (fs : List String) :
    ((create_video_from_frames w readImage frames job_id fps fs).written).Sublist frames := by
  rcases frames with _ | ⟨f0, rest⟩
  · simp [create_video_from_frames]
  · rcases hr : readImage f0.local_path with _ | img
    · simp [create_video_from_frames, hr]
    · cases w
      · simp [create_video_from_frames, hr]
      · simp only [create_video_from_frames, hr]
        exact List.filter_sublist _

/-- C7: provided the downloaded artifacts carry pairwise-distinct
ordinals, the frames written to the output video are in strictly
ascending ordinal order, whatever order object storage listed them in. -/
theorem written_frames_sorted (env : AggEnv) (job_id : String) (fps : Nat)
    (hnd : ((download_heatmap_frames env).1.map FrameInfo.frame_number).Nodup) :
    List.Sorted (· < ·)
      ((stitch_heatmap_frames env job_id fps).written.map FrameInfo.frame_number) := by
  cases hE : (download_heatmap_frames env).1.isEmpty with
  | true => simp [stitch_heatmap_frames, hE]
  | false =>
    have hsub : ((stitch_heatmap_frames env job_id fps).written).Sublist
        (List.insertionSort frameLe (download_heatmap_frames env).1) := by
      rw [show (stitch_heatmap_frames env job_id fps).written =
        (create_video_from_frames env.writerOpens
          (fun p => match (download_heatmap_frames env).1.find?
              (fun fi => fi.local_path == p) with
            | some fi => env.keyImage fi.s3_key
            | none => none)
          (List.insertionSort frameLe (download_heatmap_frames env).1) job_id fps
          (download_heatmap_frames env).2).written from by
        simp [stitch_heatmap_frames, hE]]
      exact create_video_written_sublist _ _ _ _ _ _
    have hsorted : List.Pairwise frameLe
        (List.insertionSort frameLe (download_heatmap_frames env).1) :=
      List.sorted_insertionSort frameLe _
    have hnd2 : ((List.insertionSort frameLe (download_heatmap_frames env).1).map
        FrameInfo.frame_number).Nodup :=
      (List.Perm.nodup_iff ((List.perm_insertionSort frameLe
        (download_heatmap_frames env).1).map FrameInfo.frame_number)).mpr hnd
    have hne : List.Pairwise (fun a b : FrameInfo => a.frame_number ≠ b.frame_number)
        (List.insertionSort frameLe (download_heatmap_frames env).1) :=
      List.pairwise_map.mp hnd2
    have hlt : List.Pairwise (fun a b : FrameInfo => a.frame_number < b.frame_number)
        (List.insertionSort frameLe (download_heatmap_frames env).1) :=
      (hsorted.and hne).imp (fun h => lt_of_le_of_ne h.1 h.2)
    exact List.pairwise_map.mpr (List.Pairwise.sublist hsub hlt)

/-- Witness for C7 at the concrete listing order [3, 1, 2]: the written
ordinals come out as [1, 2, 3]. -/
theorem written_frames_sorted_witness :
    ((download_heatmap_frames aggShuffled).1.map FrameInfo.frame_number).Nodup ∧
    ((stitch_heatmap_frames aggShuffled "J" 10).written.map FrameInfo.frame_number =
      [1, 2, 3]) ∧
    List.Sorted (· < ·)
      ((stitch_heatmap_frames aggShuffled "J" 10).written.map FrameInfo.frame_number) :=
  ⟨by decide, by decide, written_frames_sorted aggShuffled "J" 10 (by decide)⟩

/-! ### Claim C8 -/

/-- C8 counterexample: artifact 1 decodes, artifact 2 exists but fails to
decode. Aggregation reports no error at all: it returns the video path
and silently writes only frame 1, dropping frame 2. -/
theorem unreadable_frame_skipped_counterexample :
    (stitch_heatmap_frames aggSecondUnreadable "J" 10).result =
      .ok "processed_videos/heatmap_J.mp4" ∧
    (stitch_heatmap_frames aggSecondUnreadable "J" 10).written.map
      FrameInfo.frame_number = [1] :=
  ⟨rfl, rfl⟩

/-- C8 amended: once the first frame decodes and the writer opens,
`create_video_from_frames` always succeeds: later frames that fail to
decode are silently skipped (the written list is exactly the decodable
filter), and a later frame that decodes is written regardless of its
dimensions — no dimension check exists. -/
theorem later_frames_never_flagged
    (readImage : String → Option Image) (f0 : FrameInfo) (rest : List FrameInfo)
    (job_id : String) (fps : Nat) (fs : List String) (img : Image)
    (h0 : readImage f0.local_path = some img) :
    (create_video_from_frames true readImage (f0 :: rest) job_id fps fs).result =
      .ok ("processed_videos/heatmap_" ++ job_id ++ ".mp4") ∧
    (create_video_from_frames true readImage (f0 :: rest) job_id fps fs).written =
      (f0 :: rest).filter (fun fi => (readImage fi.local_path).isSome) ∧
    (∀ fi ∈ rest, ∀ im2, readImage fi.local_path = some im2 →
      fi ∈ (create_video_from_frames true readImage (f0 :: rest) job_id fps fs).written) := by
  refine ⟨by simp [create_video_from_frames, h0], by simp [create_video_from_frames, h0], ?_⟩
  intro fi hfi im2 him
  simp only [create_video_from_frames, h0]
  refine List.mem_filter.mpr ⟨List.mem_cons_of_mem f0 hfi, ?_⟩
  simp [him]

/-- Witness for C8's amended theorem: `"b"` is unreadable and skipped,
`"c"` decodes at different dimensions (9×7 vs 4×4) and is written anyway,
and the run still returns the video path. -/
def readImageW : String → Option Image := fun p =>
  if p == "a" then some ⟨4, 4⟩ else if p == "c" then some ⟨9, 7⟩ else none

theorem later_frames_never_flagged_witness :
    readImageW "a" = some ⟨4, 4⟩ ∧
    ((create_video_from_frames true readImageW
        [⟨1, "k1", "a"⟩, ⟨2, "k2", "b"⟩, ⟨3, "k3", "c"⟩] "J" 10 ["a", "b", "c"]).result =
      .ok ("processed_videos/heatmap_" ++ "J" ++ ".mp4") ∧
     (create_video_from_frames true readImageW
        [⟨1, "k1", "a"⟩, ⟨2, "k2", "b"⟩, ⟨3, "k3", "c"⟩] "J" 10 ["a", "b", "c"]).written =
      [⟨1, "k1", "a"⟩, ⟨2, "k2", "b"⟩, ⟨3, "k3", "c"⟩].filter
        (fun fi => (readImageW fi.local_path).isSome) ∧
     (∀ fi ∈ [⟨2, "k2", "b"⟩, ⟨3, "k3", "c"⟩], ∀ im2 : Image,
        readImageW fi.local_path = some im2 →
        fi ∈ (create_video_from_frames true readImageW
          [⟨1, "k1", "a"⟩, ⟨2, "k2", "b"⟩, ⟨3, "k3", "c"⟩] "J" 10 ["a", "b", "c"]).written)) :=
  ⟨rfl, later_frames_never_flagged readImageW ⟨1, "k1", "a"⟩
    [⟨2, "k2", "b"⟩, ⟨3, "k3", "c"⟩] "J" 10 ["a", "b", "c"] ⟨4, 4⟩ rfl⟩

/-! ### Claim C10 -/

/-- A key on which the download loop raises: it passes the substring test
but either its ordinal fails to parse (`IndexError`/`ValueError`) or its
download raises. -/
def badKey (env : AggEnv) (key : String) : Prop :=
  substrContains key "_heatmap.jpg" = true ∧
  (pyFrameNum? key = none ∨ env.downloadRaises key = true)

instance (env : AggEnv) (key : String) : Decidable (badKey env key) :=
  decidable_of_iff
    (substrContains key "_heatmap.jpg" = true ∧
     (pyFrameNum? key = none ∨ env.downloadRaises key = true)) Iff.rfl

/-- Any raising key anywhere in the listing makes the whole loop return
the empty list. -/
theorem dlLoop_bad_key (env : AggEnv) :
    ∀ (keys : List String) (n : Nat) (acc : List FrameInfo) (created : List String),
      (∃ k ∈ keys, badKey env k) → (dlLoop env keys n acc created).1 = [] := by
  intro keys
  induction keys with
  | nil =>
    rintro n acc created ⟨k, hk, -⟩
    cases hk
  | cons key rest ih =>
    rintro n acc created ⟨k, hk, hbad⟩
    rcases List.mem_cons.mp hk with rfl | hk'
    · obtain ⟨hsub, hrest⟩ := hbad
      rcases hfn : pyFrameNum? k with _ | fn
      · simp [dlLoop, hsub, hfn]
      · rcases hrest with hnone | hdl
        · rw [hfn] at hnone
          cases hnone
        · simp [dlLoop, hsub, hfn, hdl]
    · cases hsub : substrContains key "_heatmap.jpg" with
      | false =>
        rw [show dlLoop env (key :: rest) n acc created =
          dlLoop env rest n acc created from by simp [dlLoop, hsub]]
        exact ih n acc created ⟨k, hk', hbad⟩
      | true =>
        rcases hfn : pyFrameNum? key with _ | fn
        · simp [dlLoop, hsub, hfn]
        · cases hdl : env.downloadRaises key with
          | true => simp [dlLoop, hsub, hfn, hdl]
          | false =>
            rw [show dlLoop env (key :: rest) n acc created =
              dlLoop env rest (n + 1) (acc ++ [⟨fn, key, tempPath n⟩])
                (created ++ [tempPath n]) from by simp [dlLoop, hsub, hfn, hdl]]
            exact ih _ _ _ ⟨k, hk', hbad⟩

/-- C10: the download step never raises — a listing exception, or any key
whose parse or download raises, makes `download_heatmap_frames` return
the empty list, and aggregation then fails with the misleading
"No heatmap frames found in S3" diagnostic even when decodable artifacts
sit in storage. -/
theorem download_swallows_exceptions (env : AggEnv) (job_id : String) (fps : Nat)
    (h : env.listingRaises = true ∨ ∃ key ∈ env.contents.getD [], badKey env key) :
    (download_heatmap_frames env).1 = [] ∧
    (stitch_heatmap_frames env job_id fps).result =
      .error "No heatmap frames found in S3" := by
  have hdl : (download_heatmap_frames env).1 = [] := by
    rcases h with hL | hB
    · simp [download_heatmap_frames, hL]
    · cases hLR : env.listingRaises with
      | true => simp [download_heatmap_frames, hLR]
      | false =>
        rcases hC : env.contents with _ | keys
        · simp [download_heatmap_frames, hLR, hC]
        · rw [hC] at hB
          simp only [Option.getD_some] at hB
          rw [download_heatmap_frames, if_neg (by simp [hLR]), hC]
          exact dlLoop_bad_key env keys 0 [] [] hB
  exact ⟨hdl, by simp [stitch_heatmap_frames, hdl]⟩

/-- Witness for C10: the listing holds a decodable, conforming artifact
next to a key whose parse raises; the download still returns `[]` and
aggregation reports the no-frames diagnostic. -/
theorem download_swallows_exceptions_witness :
    (aggBadKey.listingRaises = true ∨
      ∃ key ∈ aggBadKey.contents.getD [], badKey aggBadKey key) ∧
    ((download_heatmap_frames aggBadKey).1 = [] ∧
     (stitch_heatmap_frames aggBadKey "J" 10).result =
       .error "No heatmap frames found in S3") :=
  ⟨by decide, download_swallows_exceptions aggBadKey "J" 10 (by decide)⟩
